import Mathlib

/-!
Shallow embedding of the SLVSS control loop of the n8n-sovereign repository:
the loop orchestrator (SLVSSRunner.tick), the verification gate (VERI3FY),
the scaling engine (ScalingEngine), the learning core (LearningCore) and the
artifact generator (AutoGenerator).

Modelling conventions, used uniformly below:
- JavaScript numbers are modelled as rationals.  The idiom
  parseFloat(x.toFixed(n)) of the source is modelled by `roundTo n`,
  rounding to the nearest multiple of 10^(-n).
- Math.log2 is transcendental, hence not a rational function; the one place
  whose exact value matters to no claim (computeROI of the runner) takes a
  log2 oracle as an explicit function parameter.  Math.floor(Math.log2 x),
  which is exactly computable for x >= 1, is modelled by `log2Floor`.
- A JavaScript Map is modelled as an insertion-ordered list with unique keys;
  set of an existing key updates in place, set of a new key appends.
- Payload fields read with JavaScript comparison semantics are modelled as
  Option values: `none` stands for a field that is absent or whose value
  coerces to NaN, so that every numeric comparison against it is false,
  exactly as in JavaScript.
- ISO timestamp strings of the source are modelled by the underlying epoch
  time as a rational, threaded through as explicit parameters.
- Artifact bodies are opaque strings per the data model (GenerationOutcome
  holds "opaque strings"); they are modelled by a tag recording which
  template fired together with the inputs of the tick, since the templates
  render wall-clock timestamps and no claim inspects the rendered text.
  The gating data of each template (type, minConfidence, minScale) is taken
  verbatim from the source.
-/

attribute [local semireducible] Rat.mul Rat.add Rat.sub Rat.inv Rat.ofScientific

/-- parseFloat(x.toFixed(n)) of the source: round to n decimal places. -/
def roundTo (n : ℕ) (q : ℚ) : ℚ := (round (q * 10 ^ n) : ℚ) / 10 ^ n

/-- ToInt32 of JavaScript: wrap an integer into [-2^31, 2^31). -/
def wrap32 (n : ℤ) : ℤ := (n + 2 ^ 31) % 2 ^ 32 - 2 ^ 31

/-- One step of the rolling hash of LearningCore.hashFeatures:
hash = ((hash << 5) - hash) + charCode, hash |= 0.  Both the shift and the
final or-with-zero are Int32 operations in JavaScript. -/
def hashStep (h : ℤ) (c : ℕ) : ℤ := wrap32 (wrap32 (h * 32) - h + c)

/-- The rolling integer hash over the characters of a string
(charCodeAt is the code point for the ASCII strings that occur here). -/
def jsHash (s : String) : ℤ := s.data.foldl (fun h c => hashStep h c.toNat) 0

/-- Math.abs(hash).toString(16) of the source. -/
def natToHex (n : ℕ) : String := String.mk (Nat.toDigits 16 n)

/-- Lexicographic order on code points (the comparison JavaScript applies
to strings; code point and UTF-16 order agree on the ASCII strings that
occur here). -/
def charListLe : List Char → List Char → Bool
  | [], _ => true
  | _ :: _, [] => false
  | c :: cs, d :: ds =>
      if c.toNat < d.toNat then true
      else if d.toNat < c.toNat then false
      else charListLe cs ds

/-- Array.prototype.sort() on strings: lexicographic order on code points.
The stable JavaScript sort is modelled by a stable insertion sort. -/
def sortStrings (l : List String) : List String :=
  l.insertionSort (fun a b => charListLe a.data b.data = true)

/-- Floor of the base-2 logarithm on naturals, by fuelled halving (fuel n
suffices since log2 n < n for n >= 1). -/
def log2Fuel : ℕ → ℕ → ℕ
  | 0, _ => 0
  | fuel + 1, n => if n < 2 then 0 else log2Fuel fuel (n / 2) + 1

/-- Math.floor(Math.log2 x) for x >= 1 (the only regime that occurs:
every call site passes scale + 1 with scale >= 0). -/
def log2Floor (x : ℚ) : ℤ := Int.ofNat (log2Fuel (Int.toNat ⌊x⌋) (Int.toNat ⌊x⌋))

/-- Substring containment, String.prototype.includes of JavaScript. -/
def charsContain : List Char → List Char → Bool
  | _, [] => true
  | [], _ :: _ => false
  | c :: hay, needle =>
      List.isPrefixOf needle (c :: hay) || charsContain hay needle

/-- hay.includes(needle) of JavaScript. -/
def strIncludes (hay needle : String) : Bool := charsContain hay.data needle.data

/-- Characters before the first occurrence of a separator. -/
def takeUntil (sep : Char) : List Char → List Char
  | [] => []
  | c :: cs => if c = sep then [] else c :: takeUntil sep cs

/-- s.split(sep)[0] of JavaScript: the segment before the first separator,
the whole string when the separator does not occur. -/
def headSegment (sep : Char) (s : String) : String := String.mk (takeUntil sep s.data)

/-- Maximal run of decimal digits at the head of a character list. -/
def digitSpan : List Char → ℕ × List Char
  | [] => (0, [])
  | c :: rest =>
      if c.isDigit then
        let (n, r) := digitSpan rest
        (n + 1, r)
      else (0, c :: rest)

/-- Search for the regular expression d+ . d+ anywhere in a character list
(the String.prototype.match test of VERI3FY stage 3). -/
def charsMatchVer : List Char → Bool
  | [] => false
  | c :: rest =>
      (c.isDigit &&
        (let (_, afterDigits) := digitSpan (c :: rest)
         match afterDigits with
         | '.' :: d :: _ => d.isDigit
         | _ => false)) ||
      charsMatchVer rest

/-- s.match(/d+.d+/) is non-null. -/
def strMatchesVer (s : String) : Bool := charsMatchVer s.data

/-- push to a JavaScript array followed by shift once the length exceeds
a bound (the rolling-window idiom used for history, scaleHistory and
artifactLog). -/
def pushBounded (bound : ℕ) (l : List α) (x : α) : List α :=
  let l' := l ++ [x]
  if bound < l'.length then l'.tail else l'

-- ============================================================
-- Learning Core (LearningCore.ts)
-- ============================================================

/-- A value stored under a key of an ingested data record; only the kinds
that feature extraction distinguishes are represented. -/
inductive JsVal where
  | num (q : ℚ)
  | str (s : String)
  | strArr (es : List String)
  | bool (b : Bool)
  | obj
  deriving DecidableEq, Repr

/-- An ingested data record: keys in insertion order with their values. -/
def DataRec := List (String × JsVal)

instance : DecidableEq DataRec := by unfold DataRec; infer_instance

/-- Lookup of data[key]. -/
def dataGet (d : DataRec) (k : String) : Option JsVal :=
  (d.find? (fun e => e.1 = k)).map (fun e => e.2)

/-- LearningCore.extractFeatures, translated clause by clause. -/
def extractFeatures (data : DataRec) : List String :=
  let keys := data.map (fun e => e.1)
  let f0 := ["keys:" ++ toString keys.length,
             "type_sig:" ++ String.intercalate "|" (sortStrings keys)]
  let f1 := match dataGet data "score" with
    | some (JsVal.num q) =>
        ["score_band:" ++ (if q ≥ 9/10 then "high" else if q ≥ 7/10 then "mid" else "low")]
    | _ => []
  let f2 := match dataGet data "iteration" with
    | some (JsVal.num q) =>
        ["phase:" ++ (if q < 10 then "warmup" else if q < 50 then "ramp" else "cruise")]
    | _ => []
  let f3 := match dataGet data "errors" with
    | some (JsVal.strArr es) =>
        ["errors:" ++ toString es.length] ++
        (if 0 < es.length then
          ["error_types:" ++ String.intercalate ","
            (es.map (fun e => headSegment ':' e))]
         else [])
    | _ => []
  let f4 := match dataGet data "scale" with
    | some (JsVal.num q) => ["scale_log2:" ++ toString (log2Floor (q + 1))]
    | _ => []
  f0 ++ f1 ++ f2 ++ f3 ++ f4

/-- Outcome class of an ingested observation. -/
inductive IngestType where
  | success
  | failure
  deriving DecidableEq, Repr

/-- The literal string of an outcome class. -/
def IngestType.tag : IngestType → String
  | .success => "success"
  | .failure => "failure"

/-- LearningCore.hashFeatures: hash of type and the sorted, joined features.
The source sorts the features array in place before hashing. -/
def hashFeatures (features : List String) (ty : IngestType) : String :=
  let raw := ty.tag ++ ":" ++ String.intercalate "||" (sortStrings features)
  ty.tag ++ "_" ++ natToHex (jsHash raw).natAbs

/-- LearnedPattern of the source; lastSeen is the epoch time of the
ISO string new Date().toISOString(). -/
structure LearnedPattern where
  id : String
  ptype : IngestType
  features : List String
  weight : ℚ
  seenCount : ℕ
  lastSeen : ℚ
  deriving DecidableEq, Repr

/-- LearningConfig of the source (memorySize is integral in every use). -/
structure LearningConfig where
  memorySize : ℕ
  decayRate : ℚ
  successBoost : ℚ
  failurePenalty : ℚ
  deriving DecidableEq, Repr

/-- The defaults of the LearningCore constructor. -/
def defaultLearningConfig : LearningConfig :=
  { memorySize := 500, decayRate := 99/100, successBoost := 1/10,
    failurePenalty := 15/100 }

/-- The mutable state of a LearningCore instance; patterns is the Map in
insertion order. -/
structure LearnState where
  patterns : List LearnedPattern
  ingestCount : ℕ
  successCount : ℕ
  failureCount : ℕ
  modelVersion : String
  totalImprovementDelta : ℚ
  deriving DecidableEq, Repr

/-- A freshly constructed LearningCore. -/
def initLearnState : LearnState :=
  { patterns := [], ingestCount := 0, successCount := 0, failureCount := 0,
    modelVersion := "1.0", totalImprovementDelta := 0 }

/-- LearningCore.decayPatterns: every weight is multiplied by the decay
rate (and rounded to 6 decimals by the toFixed(6) idiom). -/
def decayPatterns (cfg : LearningConfig) (ps : List LearnedPattern) :
    List LearnedPattern :=
  ps.map (fun p => { p with weight := roundTo 6 (p.weight * cfg.decayRate) })

/-- LearningCore.pruneWeakPatterns: sort ascending by weight (the stable
JavaScript sort with comparator a.weight - b.weight) and delete the first
floor(memorySize * 0.1) entries from the map. -/
def pruneWeakPatterns (cfg : LearningConfig) (ps : List LearnedPattern) :
    List LearnedPattern :=
  let sorted := ps.insertionSort (fun a b => a.weight ≤ b.weight)
  let toRemove := (sorted.take (cfg.memorySize / 10)).map (fun p => p.id)
  ps.filter (fun p => ¬ p.id ∈ toRemove)

/-- LearningCore.updateModelVersion. -/
def modelVersionOf (ingestCount : ℕ) : String :=
  toString (ingestCount / 100 + 1) ++ "." ++ toString (ingestCount % 100 / 10)

/-- LearningResult of the source. -/
structure LearningResult where
  learned : Bool
  patterns : ℕ
  improvementDelta : ℚ
  modelVersion : String
  deriving DecidableEq, Repr

/-- IngestInput of the source (now is the wall clock used for lastSeen;
the iteration field is carried but never read by ingest). -/
structure IngestInput where
  ty : IngestType
  data : DataRec
  iteration : ℤ
  deriving DecidableEq

/-- LearningCore.ingest, translated step by step. -/
def ingest (cfg : LearningConfig) (st : LearnState) (input : IngestInput)
    (now : ℚ) : LearnState × LearningResult :=
  let ingestCount := st.ingestCount + 1
  let features := extractFeatures input.data
  let patternId := hashFeatures features input.ty
  let patterns := decayPatterns cfg st.patterns
  let step : List LearnedPattern × ℚ :=
    match patterns.find? (fun p => p.id = patternId) with
    | some p =>
      let boost := if input.ty = IngestType.success then cfg.successBoost else cfg.failurePenalty
      let newWeight := roundTo 6 (min (p.weight + boost) 1)
      (patterns.map (fun q =>
        if q.id = patternId then
          { q with weight := newWeight, seenCount := q.seenCount + 1, lastSeen := now }
        else q),
       newWeight - p.weight)
    | none =>
      let seed : ℚ := if input.ty = IngestType.success then 6/10 else 4/10
      let newPattern : LearnedPattern :=
        { id := patternId, ptype := input.ty, features := sortStrings features,
          weight := seed, seenCount := 1, lastSeen := now }
      let grown := patterns ++ [newPattern]
      (if cfg.memorySize < grown.length then pruneWeakPatterns cfg grown
       else grown,
       seed)
  let patterns := step.1
  let improvementDelta := step.2
  let successCount := if input.ty = IngestType.success then st.successCount + 1 else st.successCount
  let failureCount := if input.ty = IngestType.success then st.failureCount else st.failureCount + 1
  let st' : LearnState :=
    { patterns := patterns, ingestCount := ingestCount,
      successCount := successCount, failureCount := failureCount,
      modelVersion := modelVersionOf ingestCount,
      totalImprovementDelta := st.totalImprovementDelta + improvementDelta }
  (st', { learned := true, patterns := patterns.length,
          improvementDelta := roundTo 6 improvementDelta,
          modelVersion := st'.modelVersion })

-- ============================================================
-- Shared loop record types (SLVSSRunner.ts)
-- ============================================================

/-- The status tag of a LoopIteration record. -/
inductive Status where
  | running
  | passed
  | failed
  | scaled
  deriving DecidableEq, Repr

/-- VERI3FYResult of the source; the first field is named stage1_syntax
there, renamed here with an ok suffix. -/
structure VeriResult where
  stage1_syntax_ok : Bool
  stage2_logic : Bool
  stage3_sovereignty : Bool
  passed : Bool
  score : ℚ
  errors : List String
  deriving DecidableEq, Repr

/-- ScalingResult of the source. -/
structure ScalingResult where
  scaled : Bool
  previousScale : ℚ
  newScale : ℚ
  reason : String
  deriving DecidableEq, Repr

/-- An artifact body: the templates render opaque strings, modelled by the
template type that fired together with the inputs of the tick (see the
header comment). -/
structure Artifact where
  ttype : String
  iteration : ℤ
  scale : ℚ
  confidence : ℚ
  deriving DecidableEq, Repr

/-- GenerationResult of the source. -/
structure GenerationResult where
  generated : Bool
  artifacts : List Artifact
  gtype : String
  deriving DecidableEq, Repr

/-- LoopIteration of the source; the two timestamps are epoch times. -/
structure LoopIteration where
  id : ℤ
  startedAt : ℚ
  completedAt : Option ℚ
  durationMs : ℚ
  veri3fyResult : VeriResult
  scalingResult : ScalingResult
  generationResult : GenerationResult
  learningResult : LearningResult
  status : Status
  confidence : ℚ
  roi : ℚ
  deriving DecidableEq, Repr

-- ============================================================
-- Scaling Engine (ScalingEngine.ts)
-- ============================================================

/-- ScalePolicy of the source. -/
structure ScalePolicy where
  growthFactor : ℚ
  maxScale : ℚ
  minPassStreak : ℕ
  decayOnFailure : Bool
  decayFactor : ℚ
  deriving DecidableEq, Repr

/-- The defaults of the ScalingEngine constructor (the only construction in
the repository, SLVSSRunner, passes no overrides). -/
def defaultScalePolicy : ScalePolicy :=
  { growthFactor := 5/4, maxScale := 1024, minPassStreak := 3,
    decayOnFailure := true, decayFactor := 9/10 }

/-- An entry of the bounded scaleHistory event log. -/
structure ScaleEvent where
  iteration : ℤ
  scale : ℚ
  reason : String
  deriving DecidableEq, Repr

/-- The mutable state of a ScalingEngine instance. -/
structure ScalingState where
  currentScale : ℚ
  passStreak : ℕ
  failStreak : ℕ
  scaleHistory : List ScaleEvent
  deriving DecidableEq, Repr

/-- A freshly constructed ScalingEngine. -/
def initScalingState : ScalingState :=
  { currentScale := 1, passStreak := 0, failStreak := 0, scaleHistory := [] }

/-- ScaleInput of the source. -/
structure ScaleInput where
  score : ℚ
  iteration : ℤ
  history : List LoopIteration
  deriving DecidableEq

/-- The backward scan of ScalingEngine.updateStreaks over the statuses of
the window, newest first; both counters carried, first break returns. -/
def streakScan : List Status → ℕ → ℕ → ℕ × ℕ
  | [], ps, fs => (ps, fs)
  | s :: rest, ps, fs =>
      if s = Status.passed ∨ s = Status.scaled then
        if fs = 0 then streakScan rest (ps + 1) fs else (ps, fs)
      else if s = Status.failed then
        if ps = 0 then streakScan rest ps (fs + 1) else (ps, fs)
      else (ps, fs)

/-- ScalingEngine.updateStreaks: on an empty history the streak counters
are left unchanged; otherwise both are recomputed from the most recent 10
entries, scanned newest to oldest. -/
def updateStreaks (st : ScalingState) (history : List LoopIteration) :
    ScalingState :=
  if history.length = 0 then st
  else
    let window := (history.drop (history.length - 10)).map
      (fun it => it.status)
    let scanned := streakScan window.reverse 0 0
    { st with passStreak := scanned.1, failStreak := scanned.2 }

/-- ScalingEngine.scale, translated branch by branch.  Reason strings keep
the constant text of the source; interpolated numeric suffixes are omitted
(no claim inspects them). -/
def scaleStep (policy : ScalePolicy) (st : ScalingState) (input : ScaleInput) :
    ScalingState × ScalingResult :=
  let prev := st.currentScale
  let st := updateStreaks st input.history
  let outcome : ScalingState × Bool × String :=
    if policy.minPassStreak ≤ st.passStreak ∧ 85/100 ≤ input.score ∧
        st.currentScale < policy.maxScale then
      let next := roundTo 4 (min (st.currentScale * policy.growthFactor) policy.maxScale)
      ({ st with currentScale := next, passStreak := 0 }, true,
       "Pass streak + score -> scale up")
    else if policy.decayOnFailure = true ∧ 3 ≤ st.failStreak ∧ 1 < st.currentScale then
      let next := roundTo 4 (max (st.currentScale * policy.decayFactor) 1)
      ({ st with currentScale := next, failStreak := 0 }, true,
       "Fail streak -> scale decay")
    else if 0 < input.iteration ∧ input.iteration % 10 = 0 ∧ 95/100 ≤ input.score then
      let next := roundTo 4 (min (st.currentScale * (3/2)) policy.maxScale)
      ({ st with currentScale := next }, true, "Quantum boost")
    else (st, false, "No scaling event")
  let st' := outcome.1
  let scaled := outcome.2.1
  let reason := outcome.2.2
  let ev := ScaleEvent.mk input.iteration st'.currentScale reason
  let st'' :=
    if scaled then
      { st' with scaleHistory := pushBounded 50 st'.scaleHistory ev }
    else st'
  (st'', { scaled := scaled, previousScale := prev,
           newScale := st''.currentScale, reason := reason })

-- ============================================================
-- Verification Gate (VERI3FY.ts)
-- ============================================================

/-- VERI3FYConfig of the source. -/
structure VeriConfig where
  stages : ℕ
  threshold : ℚ
  strictMode : Bool
  deriving DecidableEq, Repr

/-- The pass/attempt counters of a VERI3FY instance. -/
structure VeriState where
  verifyCount : ℕ
  passCount : ℕ
  deriving DecidableEq, Repr

/-- A freshly constructed VERI3FY. -/
def initVeriState : VeriState := { verifyCount := 0, passCount := 0 }

/-- The payload handed to VERI3FY.verify.  Numeric fields are `some q`
when the field holds (or coerces to) the number q and `none` when it is
absent or coerces to NaN; string fields are `some s` when present as a
string.  See the header comment on JavaScript comparison semantics. -/
structure Payload where
  iteration : Option ℚ
  scale : Option ℚ
  learnerVersion : Option String
  successRate : Option ℚ
  avgConfidence : Option ℚ
  avgROI : Option ℚ
  timestamp : Option ℚ
  ark95xNode : Option String
  deriving DecidableEq, Repr

/-- VERI3FY stage 1 (stage1_syntax in the source): required fields
present with valid types.
Returns the stage verdict and the errors it appends, in push order.
Interpolated suffixes of the error texts are omitted (no claim inspects
them).  With the Option model a missing and a wrongly-typed field
coincide, so each branch pairs the presence error with the type error
exactly as the source does for an absent field. -/
def stage1_syntax_ok (p : Payload) : Bool × List String :=
  let missing : List String :=
    (if p.iteration = none then ["STAGE1: Missing required field: iteration"] else []) ++
    (if p.scale = none then ["STAGE1: Missing required field: scale"] else []) ++
    (if p.learnerVersion = none then ["STAGE1: Missing required field: learnerVersion"] else []) ++
    (if p.timestamp = none then ["STAGE1: Missing required field: timestamp"] else []) ++
    (if p.ark95xNode = none then ["STAGE1: Missing required field: ark95xNode"] else [])
  let typeErrs : List String :=
    (match p.iteration with
      | none => ["STAGE1: iteration must be a non-negative number"]
      | some q => if q < 0 then ["STAGE1: iteration must be a non-negative number"] else []) ++
    (match p.scale with
      | none => ["STAGE1: scale must be >= 1"]
      | some q => if q < 1 then ["STAGE1: scale must be >= 1"] else []) ++
    (match p.ark95xNode with
      | none => ["STAGE1: ark95xNode must contain ARK95X identifier"]
      | some s => if strIncludes s "ARK95X" then [] else
          ["STAGE1: ark95xNode must contain ARK95X identifier"]) ++
    (match p.timestamp with
      | none => ["STAGE1: timestamp must be a positive epoch ms value"]
      | some t => if t ≤ 0 then ["STAGE1: timestamp must be a positive epoch ms value"] else [])
  let errs := missing ++ typeErrs
  (errs.length = 0, errs)

/-- VERI3FY.stage2_logic: range and consistency checks, evaluated at wall
clock `now`.  Every comparison against an absent (`none`) field is false,
as in JavaScript; in particular the staleness test passes when timestamp
is not a number (Date.now() - timestamp is NaN). -/
def stage2_logic (p : Payload) (now : ℚ) : Bool × List String :=
  let srErr := match p.successRate with
    | some r => if r < 0 ∨ 1 < r then ["STAGE2: successRate out of range"] else []
    | none => []
  let acErr := match p.avgConfidence with
    | some c => if c < 0 ∨ 1 < c then ["STAGE2: avgConfidence out of range"] else []
    | none => []
  let roiWarn := match p.avgROI with
    | some r => if r < 0 then ["STAGE2: avgROI is negative - underperforming"] else []
    | none => []
  let staleErr := match p.timestamp with
    | some t => if 60000 < now - t then ["STAGE2: Payload timestamp is stale"] else []
    | none => []
  let iterErr := match p.iteration with
    | some q => if q < 0 then ["STAGE2: iteration cannot be negative"] else []
    | none => []
  let ok := srErr.length = 0 ∧ acErr.length = 0 ∧ staleErr.length = 0 ∧
            iterErr.length = 0
  (ok, srErr ++ acErr ++ roiWarn ++ staleErr ++ iterErr)

/-- The allow-list of VERI3FY.stage3_sovereignty. -/
def validNodes : List String :=
  ["SLVSS-ARK95X-v2", "PAXRuntime", "SovereignExtraction", "AutomationAPI"]

/-- VERI3FY.stage3_sovereignty: PAX alignment checks.  The node test takes
each allow-list entry, splits at the dash and asks whether the payload
node contains the part before the first dash. -/
def stage3_sovereignty (p : Payload) : Bool × List String :=
  let nodeStr := match p.ark95xNode with
    | some s => s
    | none => "undefined"
  let nodeValid := validNodes.any (fun n => strIncludes nodeStr (headSegment '-' n))
  let nodeErr := if nodeValid then [] else ["STAGE3: Non-sovereign node detected"]
  let confErr := match p.iteration, p.avgConfidence with
    | some it, some c =>
        if 5 < it ∧ c < 7/10 then ["STAGE3: Sovereignty confidence too low after warmup"] else []
    | _, _ => []
  let scaleErr := match p.iteration, p.scale with
    | some it, some sc =>
        if 10 < it ∧ sc < 1 then ["STAGE3: Scale regression detected - sovereignty at risk"] else []
    | _, _ => []
  let verStr := match p.learnerVersion with
    | some s => s
    | none => ""
  let verOk := ¬ (p.learnerVersion = none) ∧ strMatchesVer verStr = true
  let verErr := if verOk then [] else ["STAGE3: Invalid learner version"]
  let errs := nodeErr ++ confErr ++ scaleErr ++ verErr
  (errs.length = 0, errs)

/-- VERI3FY.verify: up to three stages, weighted 0.35 / 0.30 / 0.35, with
the early returns for stage depths 1 and 2 and the strict/non-strict
verdict at full depth, exactly as the source. -/
def verify (cfg : VeriConfig) (vs : VeriState) (p : Payload) (now : ℚ) :
    VeriState × VeriResult :=
  let vs := { vs with verifyCount := vs.verifyCount + 1 }
  let r1 := stage1_syntax_ok p
  let s1 := r1.1
  let stage1Score : ℚ := if s1 then 35/100 else 0
  if cfg.stages < 2 then
    let passed := s1 ∧ cfg.threshold * (35/100) ≤ stage1Score
    let vs := if passed then { vs with passCount := vs.passCount + 1 } else vs
    (vs, { stage1_syntax_ok := s1, stage2_logic := false, stage3_sovereignty := false,
           passed := passed, score := stage1Score, errors := r1.2 })
  else
    let r2 := stage2_logic p now
    let s2 := r2.1
    let stage2Score : ℚ := if s2 then 30/100 else 0
    if cfg.stages < 3 then
      let score := stage1Score + stage2Score
      let passed := s1 ∧ s2 ∧ cfg.threshold * (65/100) ≤ score
      let vs := if passed then { vs with passCount := vs.passCount + 1 } else vs
      (vs, { stage1_syntax_ok := s1, stage2_logic := s2, stage3_sovereignty := false,
             passed := passed, score := score, errors := r1.2 ++ r2.2 })
    else
      let r3 := stage3_sovereignty p
      let s3 := r3.1
      let stage3Score : ℚ := if s3 then 35/100 else 0
      let score := roundTo 4 (stage1Score + stage2Score + stage3Score)
      let passed :=
        if cfg.strictMode then s1 ∧ s2 ∧ s3 ∧ cfg.threshold ≤ score
        else cfg.threshold ≤ score
      let vs := if passed then { vs with passCount := vs.passCount + 1 } else vs
      (vs, { stage1_syntax_ok := s1, stage2_logic := s2, stage3_sovereignty := s3,
             passed := passed, score := score, errors := r1.2 ++ r2.2 ++ r3.2 })

-- ============================================================
-- Artifact Generator (AutoGenerator.ts)
-- ============================================================

/-- GenerateInput of the source. -/
structure GenerateInput where
  iteration : ℤ
  scale : ℚ
  confidence : ℚ
  history : List LoopIteration
  deriving DecidableEq

/-- The gating data of an artifact template. -/
structure TemplateGate where
  ttype : String
  minConfidence : ℚ
  minScale : ℚ
  deriving DecidableEq, Repr

/-- The template table of AutoGenerator, in source order (ascending
requirement); type names and gates verbatim from the source. -/
def templates : List TemplateGate :=
  [ { ttype := "workflow", minConfidence := 85/100, minScale := 1 },
    { ttype := "api_route", minConfidence := 87/100, minScale := 5/4 },
    { ttype := "value_scan", minConfidence := 88/100, minScale := 1 },
    { ttype := "agent_task", minConfidence := 9/10, minScale := 3/2 },
    { ttype := "typescript_module", minConfidence := 92/100, minScale := 2 },
    { ttype := "quantum_workflow", minConfidence := 95/100, minScale := 4 } ]

/-- An entry of the bounded artifactLog. -/
structure ArtifactLogEntry where
  iteration : ℤ
  artifacts : List Artifact
  atype : String
  deriving DecidableEq, Repr

/-- The mutable state of an AutoGenerator instance. -/
structure GenState where
  generationCount : ℕ
  artifactLog : List ArtifactLogEntry
  deriving DecidableEq, Repr

/-- A freshly constructed AutoGenerator. -/
def initGenState : GenState := { generationCount := 0, artifactLog := [] }

/-- AutoGenerator.generate: every template whose confidence and scale
gates are met fires, the recorded type tracking the last fired template;
every positive multiple-of-5 iteration additionally emits the sovereignty
summary and overrides the type. -/
def generate (gs : GenState) (input : GenerateInput) :
    GenState × GenerationResult :=
  let gs := { gs with generationCount := gs.generationCount + 1 }
  let fired := templates.filter (fun t =>
    t.minConfidence ≤ input.confidence ∧ t.minScale ≤ input.scale)
  let arts0 := fired.map (fun t =>
    Artifact.mk t.ttype input.iteration input.scale input.confidence)
  let highest0 := ((fired.map (fun t => t.ttype)).getLast?).getD "none"
  let isSummary := 0 < input.iteration ∧ input.iteration % 5 = 0
  let arts := if isSummary then
      arts0 ++ [Artifact.mk "sovereignty_summary" input.iteration input.scale input.confidence]
    else arts0
  let highest := if isSummary then "sovereignty_summary" else highest0
  let result : GenerationResult :=
    { generated := arts.length ≠ 0, artifacts := arts, gtype := highest }
  let entry := ArtifactLogEntry.mk input.iteration arts highest
  let gs :=
    if arts.length ≠ 0 then
      { gs with artifactLog := pushBounded 100 gs.artifactLog entry }
    else gs
  (gs, result)

-- ============================================================
-- Loop Orchestrator (SLVSSRunner.ts)
-- ============================================================

/-- LoopConfig of the source. -/
structure LoopConfig where
  maxIterations : ℕ
  intervalMs : ℚ
  confidenceThreshold : ℚ
  autoScale : Bool
  autoGenerate : Bool
  learnFromFailures : Bool
  veri3fyStages : ℕ
  deriving DecidableEq, Repr

/-- The defaults of the SLVSSRunner constructor. -/
def defaultLoopConfig : LoopConfig :=
  { maxIterations := 0, intervalMs := 5000, confidenceThreshold := 85/100,
    autoScale := true, autoGenerate := true, learnFromFailures := true,
    veri3fyStages := 3 }

/-- The mutable state of a SLVSSRunner instance with its four engines.
The VERI3FY of a runner is constructed with the stage depth and threshold
of the loop configuration (strictMode keeps its default true); the other
engines keep all constructor defaults. -/
structure RunnerState where
  config : LoopConfig
  veriState : VeriState
  scalingState : ScalingState
  genState : GenState
  learnState : LearnState
  iteration : ℕ
  totalPassed : ℕ
  totalFailed : ℕ
  totalGenerated : ℕ
  confidenceSum : ℚ
  roiSum : ℚ
  history : List LoopIteration
  running : Bool
  deriving DecidableEq

/-- A freshly constructed and started SLVSSRunner under a configuration. -/
def initRunnerState (cfg : LoopConfig) : RunnerState :=
  { config := cfg, veriState := initVeriState, scalingState := initScalingState,
    genState := initGenState, learnState := initLearnState,
    iteration := 0, totalPassed := 0, totalFailed := 0, totalGenerated := 0,
    confidenceSum := 0, roiSum := 0, history := [], running := true }

/-- The VERI3FY configuration the runner constructs. -/
def runnerVeriConfig (cfg : LoopConfig) : VeriConfig :=
  { stages := cfg.veri3fyStages, threshold := cfg.confidenceThreshold,
    strictMode := true }

/-- SLVSSRunner.buildPayload at iteration counter already incremented. -/
def buildPayload (st : RunnerState) (now : ℚ) : Payload :=
  { iteration := some (st.iteration : ℚ),
    scale := some st.scalingState.currentScale,
    learnerVersion := some st.learnState.modelVersion,
    successRate := some (if 0 < st.iteration then (st.totalPassed : ℚ) / (st.iteration : ℚ) else 0),
    avgConfidence := some (if 0 < st.iteration then st.confidenceSum / (st.iteration : ℚ) else 0),
    avgROI := some (if 0 < st.iteration then st.roiSum / (st.iteration : ℚ) else 0),
    timestamp := some now,
    ark95xNode := some "SLVSS-ARK95X-v2" }

/-- SLVSSRunner.computeROI; lg is the Math.log2 oracle (see header). -/
def computeROI (lg : ℚ → ℚ) (confidence scale : ℚ) : ℚ :=
  roundTo 2 (confidence * 100 * (lg (scale + 1) + 1))

/-- The data record of the failure ingest: the VERI3FYResult object, keys
in the insertion order of the object literal returned by verify. -/
def vResultData (v : VeriResult) : DataRec :=
  [("stage1_syntax_ok", JsVal.bool v.stage1_syntax_ok),
   ("stage2_logic", JsVal.bool v.stage2_logic),
   ("stage3_sovereignty", JsVal.bool v.stage3_sovereignty),
   ("passed", JsVal.bool v.passed),
   ("score", JsVal.num v.score),
   ("errors", JsVal.strArr v.errors)]

/-- The data record of the success ingest: { vResult, scale }. -/
def successData (scale : ℚ) : DataRec :=
  [("vResult", JsVal.obj), ("scale", JsVal.num scale)]

/-- The body of SLVSSRunner.tick after its guards: one full iteration,
returning the successor state (history not yet updated) and the finalized
record.  t0 is the wall clock at tick start (iterStart, startedAt and the
payload timestamp), t1 the clock at the staleness check inside verify,
t2 the clock at finalization. -/
def tickBody (lg : ℚ → ℚ) (st : RunnerState) (t0 t1 t2 : ℚ) :
    RunnerState × LoopIteration :=
  let st := { st with iteration := st.iteration + 1 }
  let payload := buildPayload st t0
  let v := verify (runnerVeriConfig st.config) st.veriState payload t1
  let st := { st with veriState := v.1, confidenceSum := st.confidenceSum + v.2.score }
  let vResult := v.2
  let initialScaling : ScalingResult :=
    { scaled := false, previousScale := st.scalingState.currentScale,
      newScale := st.scalingState.currentScale, reason := "" }
  let initialGen : GenerationResult := { generated := false, artifacts := [], gtype := "" }
  let initialLearn : LearningResult :=
    { learned := false, patterns := 0, improvementDelta := 0, modelVersion := "" }
  if ¬ vResult.passed then
    let st := { st with totalFailed := st.totalFailed + 1 }
    let learnStep : RunnerState × LearningResult :=
      if st.config.learnFromFailures then
        let l := ingest defaultLearningConfig st.learnState
          { ty := IngestType.failure, data := vResultData vResult,
            iteration := (st.iteration : ℤ) } t2
        ({ st with learnState := l.1 }, l.2)
      else (st, initialLearn)
    let record : LoopIteration :=
      { id := (st.iteration : ℤ), startedAt := t0, completedAt := some t2,
        durationMs := t2 - t0, veri3fyResult := vResult,
        scalingResult := initialScaling, generationResult := initialGen,
        learningResult := learnStep.2, status := Status.failed,
        confidence := vResult.score, roi := 0 }
    (learnStep.1, record)
  else
    let st := { st with totalPassed := st.totalPassed + 1 }
    let scaleRun : RunnerState × ScalingResult :=
      if st.config.autoScale then
        let s := scaleStep defaultScalePolicy st.scalingState
          { score := vResult.score, iteration := (st.iteration : ℤ), history := st.history }
        ({ st with scalingState := s.1 }, s.2)
      else (st, initialScaling)
    let st := scaleRun.1
    let sResult := scaleRun.2
    let status1 := if st.config.autoScale ∧ sResult.scaled then Status.scaled else Status.running
    let genRun : RunnerState × GenerationResult × ℚ :=
      if st.config.autoGenerate then
        let g := generate st.genState
          { iteration := (st.iteration : ℤ), scale := st.scalingState.currentScale,
            confidence := vResult.score, history := st.history }
        let roi := computeROI lg vResult.score st.scalingState.currentScale
        ({ st with genState := g.1, roiSum := st.roiSum + roi,
                   totalGenerated := st.totalGenerated + g.2.artifacts.length },
         g.2, roi)
      else (st, initialGen, 0)
    let st := genRun.1
    let l := ingest defaultLearningConfig st.learnState
      { ty := IngestType.success, data := successData st.scalingState.currentScale,
        iteration := (st.iteration : ℤ) } t2
    let st := { st with learnState := l.1 }
    let status2 := if status1 = Status.running then Status.passed else status1
    let record : LoopIteration :=
      { id := (st.iteration : ℤ), startedAt := t0, completedAt := some t2,
        durationMs := t2 - t0, veri3fyResult := vResult,
        scalingResult := sResult, generationResult := genRun.2.1,
        learningResult := l.2, status := status2,
        confidence := vResult.score, roi := genRun.2.2 }
    (st, record)

/-- SLVSSRunner.tick: the guards (not running, or the configured maximum
iteration count reached, in which case the loop stops without a record),
then the body, then finalization: append the record to the history and
evict the oldest entry beyond 100. -/
def tick (lg : ℚ → ℚ) (st : RunnerState) (t0 t1 t2 : ℚ) :
    RunnerState × Option LoopIteration :=
  if ¬ st.running then (st, none)
  else if 0 < st.config.maxIterations ∧ st.config.maxIterations ≤ st.iteration then
    ({ st with running := false }, none)
  else
    let body := tickBody lg st t0 t1 t2
    let st' := body.1
    let record := body.2
    ({ st' with history := pushBounded 100 st'.history record }, some record)

-- ============================================================
-- Helper lemmas
-- ============================================================

/-- Rounding on rationals is monotone. -/
theorem round_rat_mono {a b : ℚ} (h : a ≤ b) : round a ≤ round b := by
  rw [round_eq, round_eq]
  exact Int.floor_mono (by linarith)

/-- roundTo is monotone. -/
theorem roundTo_mono (n : ℕ) {a b : ℚ} (h : a ≤ b) : roundTo n a ≤ roundTo n b := by
  unfold roundTo
  have h10 : (0 : ℚ) < 10 ^ n := by positivity
  have hr : (round (a * 10 ^ n) : ℚ) ≤ (round (b * 10 ^ n) : ℚ) := by
    exact_mod_cast round_rat_mono (mul_le_mul_of_nonneg_right h (le_of_lt h10))
  gcongr

/-- roundTo fixes 1. -/
theorem roundTo_one (n : ℕ) : roundTo n (1 : ℚ) = 1 := by
  unfold roundTo
  have h10 : ((10 : ℚ) ^ n) = ((10 ^ n : ℤ) : ℚ) := by push_cast; ring
  rw [one_mul, h10, round_intCast]
  have : ((10 : ℤ) ^ n : ℚ) ≠ 0 := by positivity
  field_simp

/-- A value below a roundTo-fixed bound rounds to at most the bound. -/
theorem roundTo_le_fixed {n : ℕ} {x m : ℚ} (hx : x ≤ m) (hm : roundTo n m = m) :
    roundTo n x ≤ m := hm ▸ roundTo_mono n hx

/-- A value at least 1 rounds to at least 1. -/
theorem one_le_roundTo {n : ℕ} {x : ℚ} (hx : 1 ≤ x) : 1 ≤ roundTo n x :=
  (roundTo_one n) ▸ roundTo_mono n hx

/-- pushBounded keeps a list within its bound. -/
theorem pushBounded_length_le {bound : ℕ} {l : List α} {x : α}
    (h : l.length ≤ bound) : (pushBounded bound l x).length ≤ bound := by
  simp only [pushBounded]
  split_ifs with hb
  · simp only [List.length_tail, List.length_append, List.length_singleton]
    omega
  · simp only [List.length_append, List.length_singleton] at hb ⊢
    omega

/-- A filter that drops at least one element is strictly shorter. -/
theorem length_filter_lt_of_mem {p : α → Bool} {l : List α} {x : α}
    (hx : x ∈ l) (hpx : p x = false) : (l.filter p).length < l.length := by
  induction l with
  | nil => cases hx
  | cons a t ih =>
      rcases List.mem_cons.mp hx with rfl | hx'
      · have := List.length_filter_le p t
        simp only [List.filter_cons, hpx, Bool.false_eq_true, if_false, List.length_cons]
        omega
      · by_cases hpa : p a = true
        · simp only [List.filter_cons, hpa, if_true, List.length_cons]
          have := ih hx'
          omega
        · have hpa' : p a = false := by
            cases hq : p a
            · rfl
            · exact absurd hq hpa
          have := List.length_filter_le p t
          simp only [List.filter_cons, hpa', Bool.false_eq_true, if_false, List.length_cons]
          have := ih hx'
          omega

/-- updateStreaks only touches the streak counters. -/
theorem updateStreaks_currentScale (st : ScalingState) (h : List LoopIteration) :
    (updateStreaks st h).currentScale = st.currentScale := by
  unfold updateStreaks
  split_ifs <;> rfl

/-- updateStreaks only touches the streak counters. -/
theorem updateStreaks_scaleHistory (st : ScalingState) (h : List LoopIteration) :
    (updateStreaks st h).scaleHistory = st.scaleHistory := by
  unfold updateStreaks
  split_ifs <;> rfl

/-- The scale produced by one evaluation of the scaling engine, by branch. -/
theorem scaleStep_currentScale (policy : ScalePolicy) (st : ScalingState)
    (input : ScaleInput) :
    (scaleStep policy st input).1.currentScale =
      (let st1 := updateStreaks st input.history
       if policy.minPassStreak ≤ st1.passStreak ∧ 85/100 ≤ input.score ∧
           st1.currentScale < policy.maxScale then
         roundTo 4 (min (st1.currentScale * policy.growthFactor) policy.maxScale)
       else if policy.decayOnFailure = true ∧ 3 ≤ st1.failStreak ∧ 1 < st1.currentScale then
         roundTo 4 (max (st1.currentScale * policy.decayFactor) 1)
       else if 0 < input.iteration ∧ input.iteration % 10 = 0 ∧ 95/100 ≤ input.score then
         roundTo 4 (min (st1.currentScale * (3/2)) policy.maxScale)
       else st1.currentScale) := by
  simp only [scaleStep]
  split_ifs <;> rfl

/-- One evaluation keeps the scale within [1, configured maximum], for any
policy whose maximum is a 4-decimal value at least 1, whose growth factor
is at least 1 and whose decay factor is at most 1 (all satisfied by the
constructor defaults). -/
theorem scaleStep_bounds (policy : ScalePolicy) (st : ScalingState) (input : ScaleInput)
    (hmax4 : roundTo 4 policy.maxScale = policy.maxScale)
    (hmax1 : 1 ≤ policy.maxScale) (hg : 1 ≤ policy.growthFactor)
    (hd : policy.decayFactor ≤ 1)
    (h1 : 1 ≤ st.currentScale) (h2 : st.currentScale ≤ policy.maxScale) :
    1 ≤ (scaleStep policy st input).1.currentScale ∧
      (scaleStep policy st input).1.currentScale ≤ policy.maxScale := by
  rw [scaleStep_currentScale]
  simp only [updateStreaks_currentScale]
  split_ifs with hup hdec hboost
  · constructor
    · apply one_le_roundTo
      exact le_min (le_trans h1 (le_mul_of_one_le_right (by linarith) hg)) hmax1
    · exact roundTo_le_fixed (min_le_right _ _) hmax4
  · constructor
    · exact one_le_roundTo (le_max_right _ _)
    · apply roundTo_le_fixed _ hmax4
      apply max_le _ hmax1
      calc st.currentScale * policy.decayFactor ≤ st.currentScale * 1 :=
            mul_le_mul_of_nonneg_left hd (by linarith)
        _ = st.currentScale := mul_one _
        _ ≤ policy.maxScale := h2
  · constructor
    · apply one_le_roundTo
      exact le_min (by linarith) hmax1
    · exact roundTo_le_fixed (min_le_right _ _) hmax4
  · exact ⟨h1, h2⟩

/-- A sequence of calls to ScalingEngine.scale, threading the state. -/
def scaleCalls (policy : ScalePolicy) (st : ScalingState) :
    List ScaleInput → ScalingState
  | [] => st
  | input :: rest => scaleCalls policy (scaleStep policy st input).1 rest

/-- C2 -- For every sequence of calls to ScalingEngine.scale starting from
the initial state, with any scores, iteration numbers and histories, the
current scale after each call stays within [1, configured maximum].  The
policy hypotheses delimit the configurations for which the engine
maintains the invariant: a 4-decimal maximum at least 1, growth factor at
least 1, decay factor at most 1 -- all satisfied by the constructor
defaults, the only configuration the repository instantiates.  Since the
input list is arbitrary, the bound holds after every prefix, i.e. after
each call of any sequence. -/
theorem scaling_scale_bounds (policy : ScalePolicy) (inputs : List ScaleInput)
    (hmax4 : roundTo 4 policy.maxScale = policy.maxScale)
    (hmax1 : 1 ≤ policy.maxScale) (hg : 1 ≤ policy.growthFactor)
    (hd : policy.decayFactor ≤ 1) :
    1 ≤ (scaleCalls policy initScalingState inputs).currentScale ∧
      (scaleCalls policy initScalingState inputs).currentScale ≤ policy.maxScale := by
  have main : ∀ (l : List ScaleInput) (st : ScalingState),
      1 ≤ st.currentScale → st.currentScale ≤ policy.maxScale →
      1 ≤ (scaleCalls policy st l).currentScale ∧
        (scaleCalls policy st l).currentScale ≤ policy.maxScale := by
    intro l
    induction l with
    | nil => intro st a b; exact ⟨a, b⟩
    | cons input rest ih =>
        intro st a b
        have step := scaleStep_bounds policy st input hmax4 hmax1 hg hd a b
        exact ih _ step.1 step.2
  exact main inputs initScalingState le_rfl hmax1

/-- Witness for C2 at the default policy and a concrete call sequence. -/
theorem scaling_scale_bounds_witness :
    (roundTo 4 defaultScalePolicy.maxScale = defaultScalePolicy.maxScale ∧
      1 ≤ defaultScalePolicy.maxScale ∧ 1 ≤ defaultScalePolicy.growthFactor ∧
      defaultScalePolicy.decayFactor ≤ 1) ∧
    (1 ≤ (scaleCalls defaultScalePolicy initScalingState
        [{ score := 1, iteration := 10, history := [] },
         { score := 1/2, iteration := 11, history := [] }]).currentScale ∧
      (scaleCalls defaultScalePolicy initScalingState
        [{ score := 1, iteration := 10, history := [] },
         { score := 1/2, iteration := 11, history := [] }]).currentScale ≤
        defaultScalePolicy.maxScale) :=
  ⟨⟨by decide, by decide, by decide, by decide⟩,
   scaling_scale_bounds defaultScalePolicy
     [{ score := 1, iteration := 10, history := [] },
      { score := 1/2, iteration := 11, history := [] }]
     (by decide) (by decide) (by decide) (by decide)⟩

/-- C3 -- Whenever ScalingEngine.scale is called and the recomputed
pass-streak reaches the configured minimum, the score is at least 0.85 and
the current scale is below the configured maximum, the scale-up rule fires
on that call: the new scale is min(current x growth factor, maximum)
rounded to 4 decimals, the pass-streak resets to 0, and the decay and
periodic-boost rules are skipped (the result is exactly the scale-up
outcome regardless of their conditions). -/
theorem scaleUp_fires (policy : ScalePolicy) (st : ScalingState) (input : ScaleInput)
    (h1 : policy.minPassStreak ≤ (updateStreaks st input.history).passStreak)
    (h2 : 85/100 ≤ input.score)
    (h3 : st.currentScale < policy.maxScale) :
    (scaleStep policy st input).1.currentScale =
        roundTo 4 (min (st.currentScale * policy.growthFactor) policy.maxScale) ∧
      (scaleStep policy st input).1.passStreak = 0 ∧
      (scaleStep policy st input).2.scaled = true ∧
      (scaleStep policy st input).2.newScale =
        roundTo 4 (min (st.currentScale * policy.growthFactor) policy.maxScale) ∧
      (scaleStep policy st input).2.previousScale = st.currentScale := by
  have hcond : policy.minPassStreak ≤ (updateStreaks st input.history).passStreak ∧
      85/100 ≤ input.score ∧ st.currentScale < policy.maxScale := ⟨h1, h2, h3⟩
  simp only [scaleStep, updateStreaks_currentScale]
  rw [if_pos hcond]
  exact ⟨rfl, rfl, rfl, rfl, trivial⟩

/-- Witness for C3: a fresh engine under the default policy, a history of
three passed iterations, score 0.9. -/
def passedRecord (n : ℤ) : LoopIteration :=
  { id := n, startedAt := 0, completedAt := some 0, durationMs := 0,
    veri3fyResult :=
      { stage1_syntax_ok := true, stage2_logic := true, stage3_sovereignty := true,
        passed := true, score := 1, errors := [] },
    scalingResult :=
      { scaled := false, previousScale := 1, newScale := 1, reason := "" },
    generationResult := { generated := false, artifacts := [], gtype := "" },
    learningResult :=
      { learned := false, patterns := 0, improvementDelta := 0, modelVersion := "" },
    status := Status.passed, confidence := 1, roi := 0 }

/-- The concrete scale input of the C3 witness. -/
def c3Input : ScaleInput :=
  { score := 9/10, iteration := 4,
    history := [passedRecord 1, passedRecord 2, passedRecord 3] }

theorem scaleUp_fires_witness :
    (defaultScalePolicy.minPassStreak ≤
        (updateStreaks initScalingState c3Input.history).passStreak ∧
      85/100 ≤ c3Input.score ∧
      initScalingState.currentScale < defaultScalePolicy.maxScale) ∧
    ((scaleStep defaultScalePolicy initScalingState c3Input).1.currentScale =
        roundTo 4 (min (initScalingState.currentScale * defaultScalePolicy.growthFactor)
          defaultScalePolicy.maxScale) ∧
      (scaleStep defaultScalePolicy initScalingState c3Input).1.passStreak = 0 ∧
      (scaleStep defaultScalePolicy initScalingState c3Input).2.scaled = true ∧
      (scaleStep defaultScalePolicy initScalingState c3Input).2.newScale =
        roundTo 4 (min (initScalingState.currentScale * defaultScalePolicy.growthFactor)
          defaultScalePolicy.maxScale) ∧
      (scaleStep defaultScalePolicy initScalingState c3Input).2.previousScale =
        initScalingState.currentScale) :=
  ⟨⟨by decide, by decide, by decide⟩,
   scaleUp_fires defaultScalePolicy initScalingState c3Input
     (by decide) (by decide) (by decide)⟩

/-- C10 -- When the current scale already equals the configured maximum
(a 4-decimal value at least 1), a call at a positive multiple-of-10
iteration with score at least 0.95, with the recomputed pass-streak below
the minimum and the decay rule not applicable, reports scaled = true with
newScale = previousScale = maximum and still appends an event-log entry
(push, with FIFO eviction beyond 50). -/
theorem quantum_boost_at_max (policy : ScalePolicy) (st : ScalingState) (input : ScaleInput)
    (hmax : st.currentScale = policy.maxScale)
    (hmax1 : 1 ≤ policy.maxScale)
    (hmax4 : roundTo 4 policy.maxScale = policy.maxScale)
    (hps : (updateStreaks st input.history).passStreak < policy.minPassStreak)
    (hdec : ¬ (policy.decayOnFailure = true ∧
      3 ≤ (updateStreaks st input.history).failStreak ∧ 1 < st.currentScale))
    (hit : 0 < input.iteration) (hmod : input.iteration % 10 = 0)
    (hsc : 95/100 ≤ input.score) :
    (scaleStep policy st input).2.scaled = true ∧
      (scaleStep policy st input).2.newScale = policy.maxScale ∧
      (scaleStep policy st input).2.previousScale = policy.maxScale ∧
      (scaleStep policy st input).1.scaleHistory =
        pushBounded 50 st.scaleHistory
          { iteration := input.iteration, scale := policy.maxScale,
            reason := "Quantum boost" } := by
  have hnup : ¬ (policy.minPassStreak ≤ (updateStreaks st input.history).passStreak ∧
      85/100 ≤ input.score ∧ st.currentScale < policy.maxScale) := by
    rintro ⟨hp, -, -⟩
    exact absurd hp (Nat.not_le.mpr hps)
  have hndec : ¬ (policy.decayOnFailure = true ∧
      3 ≤ (updateStreaks st input.history).failStreak ∧ 1 < st.currentScale) := hdec
  have hnext : roundTo 4 (min (st.currentScale * (3/2)) policy.maxScale) =
      policy.maxScale := by
    rw [hmax]
    have hle : policy.maxScale ≤ policy.maxScale * (3/2) := by nlinarith
    rw [min_eq_right hle, hmax4]
  have hboost : 0 < input.iteration ∧ input.iteration % 10 = 0 ∧ 95/100 ≤ input.score :=
    ⟨hit, hmod, hsc⟩
  simp only [scaleStep, updateStreaks_currentScale, updateStreaks_scaleHistory]
  rw [if_neg hnup, if_neg hndec, if_pos hboost]
  simp only [hnext]
  refine ⟨?_, ?_, ?_, ?_⟩ <;> first | rfl | trivial

/-- The engine state of the C10 witness: scale pinned at the default
maximum. -/
def c10State : ScalingState :=
  { currentScale := 1024, passStreak := 0, failStreak := 0, scaleHistory := [] }

/-- The concrete scale input of the C10 witness. -/
def c10Input : ScaleInput := { score := 95/100, iteration := 10, history := [] }

theorem quantum_boost_at_max_witness :
    (c10State.currentScale = defaultScalePolicy.maxScale ∧
      1 ≤ defaultScalePolicy.maxScale ∧
      roundTo 4 defaultScalePolicy.maxScale = defaultScalePolicy.maxScale ∧
      (updateStreaks c10State c10Input.history).passStreak <
        defaultScalePolicy.minPassStreak ∧
      0 < c10Input.iteration ∧ c10Input.iteration % 10 = 0 ∧
      95/100 ≤ c10Input.score) ∧
    ((scaleStep defaultScalePolicy c10State c10Input).2.scaled = true ∧
      (scaleStep defaultScalePolicy c10State c10Input).2.newScale =
        defaultScalePolicy.maxScale ∧
      (scaleStep defaultScalePolicy c10State c10Input).2.previousScale =
        defaultScalePolicy.maxScale ∧
      (scaleStep defaultScalePolicy c10State c10Input).1.scaleHistory =
        pushBounded 50 c10State.scaleHistory
          { iteration := c10Input.iteration, scale := defaultScalePolicy.maxScale,
            reason := "Quantum boost" }) :=
  ⟨⟨by decide, by decide, by decide, by decide, by decide, by decide, by decide⟩,
   quantum_boost_at_max defaultScalePolicy c10State c10Input
     (by decide) (by decide) (by decide) (by decide) (by decide)
     (by decide) (by decide) (by decide)⟩

-- ============================================================
-- C4: learning-core capacity
-- ============================================================

/-- Pruning strictly shrinks a nonempty pattern list whenever the eviction
count floor(memorySize * 0.1) is at least 1. -/
theorem prune_shrinks (cfg : LearningConfig) (ps : List LearnedPattern)
    (hps : ps ≠ []) (h1 : 1 ≤ cfg.memorySize / 10) :
    (pruneWeakPatterns cfg ps).length < ps.length := by
  unfold pruneWeakPatterns
  have hperm : List.Perm (ps.insertionSort (fun a b => a.weight ≤ b.weight)) ps :=
    List.perm_insertionSort _ ps
  have hsne : ps.insertionSort (fun a b => a.weight ≤ b.weight) ≠ [] := by
    intro hnil
    exact hps ((hnil ▸ hperm).symm.eq_nil)
  obtain ⟨y, ys, hys⟩ := List.exists_cons_of_ne_nil hsne
  have hy_mem_take : y ∈ (ps.insertionSort (fun a b => a.weight ≤ b.weight)).take
      (cfg.memorySize / 10) := by
    rw [hys]
    cases h : cfg.memorySize / 10 with
    | zero => omega
    | succ k => simp [List.take_succ_cons]
  have hy_sorted : y ∈ ps.insertionSort (fun a b => a.weight ≤ b.weight) := by
    rw [hys]
    exact List.mem_cons_self y ys
  have hy_mem : y ∈ ps := hperm.subset hy_sorted
  have hy_id : y.id ∈ ((ps.insertionSort (fun a b => a.weight ≤ b.weight)).take
      (cfg.memorySize / 10)).map (fun p => p.id) :=
    List.mem_map_of_mem (fun p => p.id) hy_mem_take
  apply length_filter_lt_of_mem hy_mem
  simp only [decide_eq_false_iff_not, Decidable.not_not]
  exact hy_id

/-- Appending one pattern and pruning on overflow keeps the count within
a capacity of at least 10. -/
theorem grow_prune_le (cfg : LearningConfig) (h10 : 10 ≤ cfg.memorySize)
    (ps : List LearnedPattern) (hlen : ps.length ≤ cfg.memorySize)
    (x : LearnedPattern) :
    (if cfg.memorySize < (ps ++ [x]).length then pruneWeakPatterns cfg (ps ++ [x])
     else ps ++ [x]).length ≤ cfg.memorySize := by
  split_ifs with hover
  · have hne : ps ++ [x] ≠ [] := by simp
    have hshrink := prune_shrinks cfg (ps ++ [x]) hne (by omega)
    simp only [List.length_append, List.length_singleton] at hshrink hover
    omega
  · simp only [List.length_append, List.length_singleton] at hover ⊢
    omega

/-- One ingest keeps the pattern count within a capacity of at least 10. -/
theorem ingest_patterns_le (cfg : LearningConfig) (h10 : 10 ≤ cfg.memorySize)
    (st : LearnState) (hst : st.patterns.length ≤ cfg.memorySize)
    (input : IngestInput) (now : ℚ) :
    (ingest cfg st input now).1.patterns.length ≤ cfg.memorySize := by
  have hdecay : (decayPatterns cfg st.patterns).length = st.patterns.length :=
    List.length_map _ _
  simp only [ingest]
  cases hfind : (decayPatterns cfg st.patterns).find?
      (fun p => p.id = hashFeatures (extractFeatures input.data) input.ty) with
  | some p =>
      simp only [hfind]
      calc ((decayPatterns cfg st.patterns).map _).length
            = (decayPatterns cfg st.patterns).length := List.length_map _ _
        _ = st.patterns.length := hdecay
        _ ≤ cfg.memorySize := hst
  | none =>
      simp only [hfind]
      exact grow_prune_le cfg h10 (decayPatterns cfg st.patterns)
        (hdecay ▸ hst) _

/-- A sequence of calls to LearningCore.ingest, threading the state; each
call carries its observation and wall-clock time. -/
def ingestCalls (cfg : LearningConfig) (st : LearnState) :
    List (IngestInput × ℚ) → LearnState
  | [] => st
  | (input, now) :: rest => ingestCalls cfg (ingest cfg st input now).1 rest

/-- C4 (amended) -- For every configured capacity of at least 10, the
stored pattern set of a LearningCore never exceeds the capacity after any
sequence of ingests from the initial state (in particular after any ingest
that triggers pruning, which evicts the floor(capacity * 0.1) patterns of
least weight and hence at least one).  The bound 10 is necessary: below
it the eviction count floor(capacity * 0.1) is 0 and pruning removes
nothing, see the counterexample. -/
theorem learn_capacity_invariant (cfg : LearningConfig) (h10 : 10 ≤ cfg.memorySize)
    (inputs : List (IngestInput × ℚ)) :
    (ingestCalls cfg initLearnState inputs).patterns.length ≤ cfg.memorySize := by
  have main : ∀ (l : List (IngestInput × ℚ)) (st : LearnState),
      st.patterns.length ≤ cfg.memorySize →
      (ingestCalls cfg st l).patterns.length ≤ cfg.memorySize := by
    intro l
    induction l with
    | nil => intro st hst; exact hst
    | cons pr rest ih =>
        intro st hst
        exact ih _ (ingest_patterns_le cfg h10 st hst pr.1 pr.2)
  exact main inputs initLearnState (by simp [initLearnState])

/-- Witness for C4 (amended) at the default configuration and a concrete
two-ingest sequence. -/
theorem learn_capacity_invariant_witness :
    10 ≤ defaultLearningConfig.memorySize ∧
    (ingestCalls defaultLearningConfig initLearnState
        [({ ty := IngestType.success, data := [], iteration := 1 }, 0),
         ({ ty := IngestType.failure, data := [("a", JsVal.num 1)], iteration := 2 }, 1)]
      ).patterns.length ≤ defaultLearningConfig.memorySize :=
  ⟨by decide,
   learn_capacity_invariant defaultLearningConfig (by decide)
     [({ ty := IngestType.success, data := [], iteration := 1 }, 0),
      ({ ty := IngestType.failure, data := [("a", JsVal.num 1)], iteration := 2 }, 1)]⟩

/-- The learning configuration of the C4 counterexample: capacity 1. -/
def learnCfgCap1 : LearningConfig := { defaultLearningConfig with memorySize := 1 }

/-- The learning state after ingesting two observations with distinct
feature sets under capacity 1. -/
def learnCapSt2 : LearnState :=
  ingestCalls learnCfgCap1 initLearnState
    [({ ty := IngestType.success, data := [], iteration := 1 }, 0),
     ({ ty := IngestType.success, data := [("a", JsVal.num 1)], iteration := 2 }, 0)]

set_option maxRecDepth 10000 in
/-- C4 counterexample -- With a configured capacity of 1, the second
ingest pushes the pattern set to size 2 and triggers pruning (2 > 1), but
pruning evicts floor(1 * 0.1) = 0 patterns, so the stored pattern set
exceeds the configured capacity after an ingest that triggered pruning:
the claim fails for this capacity. -/
theorem learn_capacity_counterexample :
    learnCfgCap1.memorySize = 1 ∧ learnCapSt2.patterns.length = 2 ∧
      learnCfgCap1.memorySize < learnCapSt2.patterns.length := by
  refine ⟨rfl, ?_, ?_⟩ <;> decide

-- ============================================================
-- C5: identical feature sets collapse to one pattern
-- ============================================================

/-- C5 -- Ingesting two observations with the same outcome class and the
same extracted feature set into a fresh LearningCore (default
configuration, as constructed by the runner) yields exactly one stored
pattern: the two derive the same stable identifier, and after the second
ingest that single pattern has occurrence count 2. -/
theorem ingest_same_pair_collapses (ty : IngestType) (d1 d2 : DataRec)
    (i1 i2 : ℤ) (t1 t2 : ℚ)
    (hfeat : extractFeatures d2 = extractFeatures d1) :
    hashFeatures (extractFeatures d2) ty = hashFeatures (extractFeatures d1) ty ∧
    (ingest defaultLearningConfig
        (ingest defaultLearningConfig initLearnState
          { ty := ty, data := d1, iteration := i1 } t1).1
        { ty := ty, data := d2, iteration := i2 } t2).1.patterns.length = 1 ∧
    ((ingest defaultLearningConfig
        (ingest defaultLearningConfig initLearnState
          { ty := ty, data := d1, iteration := i1 } t1).1
        { ty := ty, data := d2, iteration := i2 } t2).1.patterns.map
      (fun p => p.seenCount)) = [2] := by
  refine ⟨by rw [hfeat], ?_, ?_⟩ <;>
    simp [ingest, initLearnState, decayPatterns, hfeat, List.find?_cons,
      defaultLearningConfig]

/-- Witness for C5 at a concrete observation ingested twice. -/
theorem ingest_same_pair_collapses_witness :
    extractFeatures [("scale", JsVal.num 1)] = extractFeatures [("scale", JsVal.num 1)] ∧
    (ingest defaultLearningConfig
        (ingest defaultLearningConfig initLearnState
          { ty := IngestType.success, data := [("scale", JsVal.num 1)], iteration := 1 } 5).1
        { ty := IngestType.success, data := [("scale", JsVal.num 1)], iteration := 2 } 6
      ).1.patterns.length = 1 ∧
    ((ingest defaultLearningConfig
        (ingest defaultLearningConfig initLearnState
          { ty := IngestType.success, data := [("scale", JsVal.num 1)], iteration := 1 } 5).1
        { ty := IngestType.success, data := [("scale", JsVal.num 1)], iteration := 2 } 6
      ).1.patterns.map (fun p => p.seenCount)) = [2] :=
  ⟨rfl,
   (ingest_same_pair_collapses IngestType.success [("scale", JsVal.num 1)]
     [("scale", JsVal.num 1)] 1 2 5 6 rfl).2.1,
   (ingest_same_pair_collapses IngestType.success [("scale", JsVal.num 1)]
     [("scale", JsVal.num 1)] 1 2 5 6 rfl).2.2⟩

-- ============================================================
-- C7: generator gating at confidence 0.80, scale 1
-- ============================================================

/-- C7 -- Every template requires confidence at least 0.85, so a call with
confidence 0.80 and scale 1 fires no template: the artifact count is 1 on
a positive multiple-of-5 iteration (the summary alone, and the recorded
type is the summary marker) and 0 otherwise, for any generator state,
iteration and history. -/
theorem generator_low_confidence (gs : GenState) (it : ℤ)
    (hist : List LoopIteration) :
    templates.all (fun t => 85/100 ≤ t.minConfidence) = true ∧
    (generate gs (GenerateInput.mk it 1 (8/10) hist)).2.artifacts.length =
      (if 0 < it ∧ it % 5 = 0 then 1 else 0) ∧
    (generate gs (GenerateInput.mk it 1 (8/10) hist)).2.gtype =
      (if 0 < it ∧ it % 5 = 0 then "sovereignty_summary" else "none") := by
  refine ⟨by decide, ?_, ?_⟩ <;>
  · simp only [generate, templates]
    norm_num [List.filter]
    try (split_ifs <;> simp)

/-- Witness for C7 at iteration 5 (and the all-templates gate check). -/
theorem generator_low_confidence_witness :
    templates.all (fun t => 85/100 ≤ t.minConfidence) = true ∧
    (generate initGenState (GenerateInput.mk 5 1 (8/10) [])).2.artifacts.length =
      (if 0 < (5 : ℤ) ∧ (5 : ℤ) % 5 = 0 then 1 else 0) ∧
    (generate initGenState (GenerateInput.mk 5 1 (8/10) [])).2.gtype =
      (if 0 < (5 : ℤ) ∧ (5 : ℤ) % 5 = 0 then "sovereignty_summary" else "none") :=
  generator_low_confidence initGenState 5 []

-- ============================================================
-- C9: stage 2 with absent or non-numeric fields
-- ============================================================

/-- C9 -- Stage 2 of the verification gate appends no error and returns
true for any payload whose successRate, avgConfidence and avgROI are
absent or non-numeric, whose timestamp is either a number within 60
seconds of evaluation time or not a number at all, and whose iteration is
not a negative number: every stage-2 comparison against an absent value
is false in JavaScript, so missing range fields are silently accepted. -/
theorem stage2_absent_fields_pass (p : Payload) (now : ℚ)
    (hsr : p.successRate = none) (hac : p.avgConfidence = none)
    (hroi : p.avgROI = none)
    (hts : p.timestamp = none ∨ ∃ t, p.timestamp = some t ∧ now - t ≤ 60000)
    (hit : p.iteration = none ∨ ∃ q, p.iteration = some q ∧ 0 ≤ q) :
    stage2_logic p now = (true, []) := by
  simp only [stage2_logic, hsr, hac, hroi]
  rcases hts with hts | ⟨t, hts, htle⟩
  · rcases hit with hit | ⟨q, hit, hqnn⟩
    · simp [hts, hit]
    · simp [hts, hit, not_lt.mpr hqnn]
  · rcases hit with hit | ⟨q, hit, hqnn⟩
    · simp [hts, hit, not_lt.mpr htle]
    · simp [hts, hit, not_lt.mpr htle, not_lt.mpr hqnn]

/-- Witness for C9: a payload with all five fields absent, evaluated at
time 0. -/
theorem stage2_absent_fields_pass_witness :
    stage2_logic
      { iteration := none, scale := none, learnerVersion := none,
        successRate := none, avgConfidence := none, avgROI := none,
        timestamp := none, ark95xNode := none } 0 = (true, []) :=
  stage2_absent_fields_pass _ 0 rfl rfl rfl (Or.inl rfl) (Or.inl rfl)

-- ============================================================
-- C8: end-to-end first-pass scenario
-- ============================================================

/-- The snapshot of the C8 scenario: iteration 1, scale 1, valid node id,
avgConfidence 0.9, successRate 1.0, avgROI 10, timestamp ts. -/
def c8Payload (ts : ℚ) : Payload :=
  { iteration := some 1, scale := some 1, learnerVersion := some "1.0",
    successRate := some 1, avgConfidence := some (9/10), avgROI := some 10,
    timestamp := some ts, ark95xNode := some "SLVSS-ARK95X-v2" }

/-- Stage 1 passes on the C8 snapshot for any positive timestamp. -/
theorem c8_stage1 (ts : ℚ) (hts : 0 < ts) :
    stage1_syntax_ok (c8Payload ts) = (true, []) := by
  have hnode : strIncludes "SLVSS-ARK95X-v2" "ARK95X" = true := by decide
  simp [stage1_syntax_ok, c8Payload, hnode, not_le.mpr hts]

/-- Stage 2 passes on the C8 snapshot for any fresh timestamp. -/
theorem c8_stage2 (ts now : ℚ) (hfresh : now - ts ≤ 60000) :
    stage2_logic (c8Payload ts) now = (true, []) := by
  simp [stage2_logic, c8Payload, not_lt.mpr hfresh]
  norm_num

/-- Stage 3 passes on the C8 snapshot. -/
theorem c8_stage3 (ts : ℚ) : stage3_sovereignty (c8Payload ts) = (true, []) := by
  have hnode : (validNodes.any fun n =>
      strIncludes "SLVSS-ARK95X-v2" (headSegment '-' n)) = true := by decide
  have hver : strMatchesVer "1.0" = true := by decide
  simp [stage3_sovereignty, c8Payload, hnode, hver]

/-- C8 -- Threshold 0.85, three stages, strict mode: the C8 snapshot
(iteration 1, scale 1, valid node id, avgConfidence 0.9, successRate 1.0,
avgROI 10, fresh positive timestamp) verifies with all three stages true,
score 1.0 and passed = true; the scaling evaluation on a fresh engine
produces no scaling event (pass-streak 0 < 3 at iteration 1 with empty
history); and the learning ingestion of the success into a fresh core
creates exactly one new success pattern with weight 0.6. -/
theorem end_to_end_first_pass (ts now tIngest : ℚ) (hts : 0 < ts)
    (hfresh : now - ts ≤ 60000) :
    verify { stages := 3, threshold := 85/100, strictMode := true }
        initVeriState (c8Payload ts) now =
      ({ verifyCount := 1, passCount := 1 },
       { stage1_syntax_ok := true, stage2_logic := true, stage3_sovereignty := true,
         passed := true, score := 1, errors := [] }) ∧
    scaleStep defaultScalePolicy initScalingState
        { score := 1, iteration := 1, history := [] } =
      (initScalingState,
       { scaled := false, previousScale := 1, newScale := 1,
         reason := "No scaling event" }) ∧
    ((ingest defaultLearningConfig initLearnState
        { ty := IngestType.success, data := successData 1, iteration := 1 }
        tIngest).1.patterns.map (fun p => (p.ptype, p.weight, p.seenCount))) =
      [(IngestType.success, 3/5, 1)] := by
  refine ⟨?_, by decide, ?_⟩
  · simp only [verify]
    rw [c8_stage1 ts hts, c8_stage2 ts now hfresh, c8_stage3 ts]
    norm_num
    decide
  · simp [ingest, initLearnState, decayPatterns, successData, defaultLearningConfig]
    norm_num

/-- Witness for C8 at timestamp 1000 evaluated at time 1000. -/
theorem end_to_end_first_pass_witness :
    ((0 : ℚ) < 1000 ∧ (1000 : ℚ) - 1000 ≤ 60000) ∧
    (verify { stages := 3, threshold := 85/100, strictMode := true }
        initVeriState (c8Payload 1000) 1000 =
      ({ verifyCount := 1, passCount := 1 },
       { stage1_syntax_ok := true, stage2_logic := true, stage3_sovereignty := true,
         passed := true, score := 1, errors := [] }) ∧
    scaleStep defaultScalePolicy initScalingState
        { score := 1, iteration := 1, history := [] } =
      (initScalingState,
       { scaled := false, previousScale := 1, newScale := 1,
         reason := "No scaling event" }) ∧
    ((ingest defaultLearningConfig initLearnState
        { ty := IngestType.success, data := successData 1, iteration := 1 }
        7).1.patterns.map (fun p => (p.ptype, p.weight, p.seenCount))) =
      [(IngestType.success, 3/5, 1)]) :=
  ⟨⟨by norm_num, by norm_num⟩,
   end_to_end_first_pass 1000 1000 7 (by norm_num) (by norm_num)⟩

-- ============================================================
-- C1 and C6: the orchestrator tick
-- ============================================================

/-- The record of a completed tick body carries a terminal status, and
scaled only with a passing gate result. -/
theorem tickBody_status (lg : ℚ → ℚ) (st : RunnerState) (t0 t1 t2 : ℚ) :
    ((tickBody lg st t0 t1 t2).2.status = Status.passed ∨
      (tickBody lg st t0 t1 t2).2.status = Status.failed ∨
      (tickBody lg st t0 t1 t2).2.status = Status.scaled) ∧
    ((tickBody lg st t0 t1 t2).2.status = Status.scaled →
      (tickBody lg st t0 t1 t2).2.veri3fyResult.passed = true) := by
  simp only [tickBody]
  split_ifs <;> simp_all

/-- The tick body never touches the history. -/
theorem tickBody_history (lg : ℚ → ℚ) (st : RunnerState) (t0 t1 t2 : ℚ) :
    (tickBody lg st t0 t1 t2).1.history = st.history := by
  simp only [tickBody]
  split_ifs <;> rfl

/-- C1 -- Every completed tick of the loop orchestrator finalizes its
IterationRecord with status exactly one of passed, failed, scaled (never
running), and status scaled occurs only on ticks where the verification
gate returned passed = true. -/
theorem loop_status_terminal (lg : ℚ → ℚ) (st : RunnerState) (t0 t1 t2 : ℚ)
    (r : LoopIteration) (h : (tick lg st t0 t1 t2).2 = some r) :
    (r.status = Status.passed ∨ r.status = Status.failed ∨
      r.status = Status.scaled) ∧
    (r.status = Status.scaled → r.veri3fyResult.passed = true) := by
  unfold tick at h
  split_ifs at h <;>
    (obtain rfl : (tickBody lg st t0 t1 t2).2 = r := by simpa using h
     exact tickBody_status lg st t0 t1 t2)

/-- C6 -- The history never holds more than 100 records: each completed
tick appends its record, and once the bound is exceeded the oldest record
is evicted first. -/
theorem history_bounded (lg : ℚ → ℚ) (st : RunnerState) (t0 t1 t2 : ℚ)
    (st' : RunnerState) (r : LoopIteration)
    (hlen : st.history.length ≤ 100)
    (h : tick lg st t0 t1 t2 = (st', some r)) :
    st'.history.length ≤ 100 ∧
    st'.history = (if 100 < st.history.length + 1 then (st.history ++ [r]).tail
                   else st.history ++ [r]) := by
  unfold tick at h
  split_ifs at h <;>
    first
      | (have hr : (tickBody lg st t0 t1 t2).2 = r := by
           have := congrArg Prod.snd h
           simpa using this
         have hst' : st' = { (tickBody lg st t0 t1 t2).1 with
             history := pushBounded 100 ((tickBody lg st t0 t1 t2).1).history
               ((tickBody lg st t0 t1 t2).2) } := by
           have := congrArg Prod.fst h
           simpa using this.symm
         subst hr
         rw [hst']
         refine ⟨pushBounded_length_le (by rw [tickBody_history]; exact hlen), ?_⟩
         show pushBounded 100 ((tickBody lg st t0 t1 t2).1).history _ = _
         rw [tickBody_history]
         simp only [pushBounded, List.length_append, List.length_singleton])
      | simp at h

/-- The Math.log2 oracle of the tick witnesses. -/
def lgOne : ℚ → ℚ := fun _ => 1

/-- The runner state of the tick witnesses: freshly constructed under the
default configuration. -/
def w1State : RunnerState := initRunnerState defaultLoopConfig

/-- The record produced by the witness tick. -/
def w1Rec : LoopIteration := (tickBody lgOne w1State 1 1 1).2

/-- The runner state after the witness tick. -/
def w1State' : RunnerState := (tick lgOne w1State 1 1 1).1

set_option maxRecDepth 10000 in
theorem loop_status_terminal_witness :
    (tick lgOne w1State 1 1 1).2 = some w1Rec ∧
    ((w1Rec.status = Status.passed ∨ w1Rec.status = Status.failed ∨
        w1Rec.status = Status.scaled) ∧
      (w1Rec.status = Status.scaled → w1Rec.veri3fyResult.passed = true)) :=
  ⟨by decide, loop_status_terminal lgOne w1State 1 1 1 w1Rec (by decide)⟩

set_option maxRecDepth 10000 in
theorem history_bounded_witness :
    (w1State.history.length ≤ 100 ∧
      tick lgOne w1State 1 1 1 = (w1State', some w1Rec)) ∧
    (w1State'.history.length ≤ 100 ∧
      w1State'.history = (if 100 < w1State.history.length + 1
        then (w1State.history ++ [w1Rec]).tail else w1State.history ++ [w1Rec])) :=
  ⟨⟨by decide, by decide⟩,
   history_bounded lgOne w1State 1 1 1 w1State' w1Rec (by decide) (by decide)⟩
